import Mathlib

/-!
Verification development for the planning-room board engine.

The definitions below are a shallow embedding of the board logic found in
`src/App.tsx` and in the second (multi-room) variant of the application in
`src/unnamed/part_000`.  Coordinates, scales and deltas are modelled as
rationals; the transcendental functions `Math.cos` / `Math.sin` appear as
explicit function parameters `cosF` / `sinF`, since none of the verified
properties depend on their values.  Where the two source files implement the
same handler differently, both variants are embedded: the plain name follows
`src/App.tsx`, and the `...Room` name follows `src/unnamed/part_000`.
-/

namespace PlanningRoom

/-- Node types (`BoardItem['type']`); `text` occurs only in the renderer's
center table (`getItemCenter` in `src/App.tsx`). -/
inductive ItemType where
  | goal
  | objective
  | sticky
  | ideaStrip
  | image
  | text
deriving DecidableEq

/-- A board node (`BoardItem` in `src/types`). -/
structure BoardItem where
  id : String
  type : ItemType
  content : String
  x : ℚ
  y : ℚ
  color : Option String
  isCompleted : Bool
  isLocked : Bool
deriving DecidableEq

/-- Link variants (`BoardLink['variant']`). -/
inductive LinkVariant where
  | critical
  | positive
  | alternative
  | neutral
deriving DecidableEq

/-- A directed typed link (`BoardLink` in `src/types`). -/
structure BoardLink where
  id : String
  fromId : String
  toId : String
  variant : LinkVariant
deriving DecidableEq

/-- Viewport transform `{x, y, s}` (`transform` state in both variants). -/
structure Transform where
  x : ℚ
  y : ℚ
  s : ℚ
deriving DecidableEq

/-- Source: `getItemDimensions` (src/App.tsx lines 448-457, identical in
src/unnamed/part_000 line 493).  The `sticky` case and the `default` case of
the switch both return 180 by 180. -/
def getItemDimensions : ItemType → ℚ × ℚ
  | .objective => (300, 200)
  | .ideaStrip => (280, 60)
  | .image => (280, 220)
  | .goal => (180, 180)
  | _ => (180, 180)

/-- Source: `checkOverlap` (src/App.tsx lines 459-471, identical in
src/unnamed/part_000 line 494).  The buffer constant is 40; the excluded item
short-circuits to `false` exactly as `if (item.id === excludeId) return false`. -/
def checkOverlap (boardItems : List BoardItem) (x y width height : ℚ)
    (excludeId : Option String) : Bool :=
  boardItems.any fun item =>
    if some item.id = excludeId then false
    else
      let d := getItemDimensions item.type
      decide (x < item.x + d.1 + 40 ∧ x + width + 40 > item.x ∧
        y < item.y + d.2 + 40 ∧ y + height + 40 > item.y)

/-- Source: the horizontal offsets of the `grid-below` mode of
`findBestPosition` (src/App.tsx line 476). -/
def gridOffsets : List ℚ := [0, 220, -220, 440, -440, 660, -660, 880, -880]

/-- Source: the row/offset scan of the `grid-below` branch of
`findBestPosition` (src/App.tsx lines 474-486); `rowHeight` is 250 and rows
run from 1 to 5.  Returns `none` when every cell overlaps, in which case the
source falls through to the spiral loop. -/
def gridSearch (boardItems : List BoardItem) (refX refY width height : ℚ) :
    Option (ℚ × ℚ) :=
  [(1 : ℕ), 2, 3, 4, 5].findSome? fun row =>
    gridOffsets.findSome? fun ox =>
      let targetY := refY + row * 250
      let targetX := refX + ox
      if checkOverlap boardItems targetX targetY width height none then none
      else some (targetX, targetY)

/-- Source: the `while (checkOverlap(...) && attempts < 200)` loop of
`findBestPosition` (src/App.tsx lines 488-501).  The loop state is
`(angle, radius, x, y)`; `fuel` counts the remaining attempts
(`200 - attempts`), so the recursion is structural.  Radius grows by 15 and
angle by 0.8 (= 4/5) per step. -/
def spiralGo (boardItems : List BoardItem) (width height : ℚ)
    (cosF sinF : ℚ → ℚ) (refX refY : ℚ) :
    ℕ → ℚ → ℚ → ℚ → ℚ → ℚ × ℚ
  | 0, _, _, x, y => (x, y)
  | fuel + 1, angle, radius, x, y =>
    if checkOverlap boardItems x y width height none then
      let radius' := radius + 15
      let angle' := angle + 4 / 5
      spiralGo boardItems width height cosF sinF refX refY fuel angle' radius'
        (refX + cosF angle' * radius') (refY + sinF angle' * radius')
    else (x, y)

/-- Placement modes of `findBestPosition`. -/
inductive PlacementMode where
  | spiral
  | gridBelow
deriving DecidableEq

/-- Source: `findBestPosition` (src/App.tsx lines 473-502, identical in
src/unnamed/part_000 lines 495-500).  In `grid-below` mode a successful grid
cell returns immediately; otherwise control falls through to the spiral loop,
which always starts at `(refX, refY)` with `angle = 0`, `radius = 0`,
`attempts = 0`. -/
def findBestPosition (boardItems : List BoardItem) (cosF sinF : ℚ → ℚ)
    (refX refY width height : ℚ) (mode : PlacementMode) : ℚ × ℚ :=
  match mode with
  | .gridBelow =>
    match gridSearch boardItems refX refY width height with
    | some p => p
    | none => spiralGo boardItems width height cosF sinF refX refY 200 0 0 refX refY
  | .spiral => spiralGo boardItems width height cosF sinF refX refY 200 0 0 refX refY

/-- The k-th spiral candidate: after `k` loop iterations the state is
`angle = 0.8 k`, `radius = 15 k`, and the position is
`(refX + cosF(angle) * radius, refY + sinF(angle) * radius)`; for `k = 0` this
is `(refX, refY)` since the radius factor is 0. -/
def spiralCandidate (cosF sinF : ℚ → ℚ) (refX refY : ℚ) (k : ℕ) : ℚ × ℚ :=
  (refX + cosF (4 / 5 * k) * (15 * k), refY + sinF (4 / 5 * k) * (15 * k))

/-- Overlap test of the k-th spiral candidate. -/
def spiralOverlap (boardItems : List BoardItem) (cosF sinF : ℚ → ℚ)
    (refX refY width height : ℚ) (k : ℕ) : Bool :=
  checkOverlap boardItems (spiralCandidate cosF sinF refX refY k).1
    (spiralCandidate cosF sinF refX refY k).2 width height none

/-- Code-unit lexicographic comparison on character sequences, the comparison
used by the JavaScript default array sort on two strings: `strCmpLe a b = true`
exactly when `[a, b].sort()` keeps `a` first. -/
def strCmpLe : List Char → List Char → Bool
  | [], _ => true
  | _ :: _, [] => false
  | a :: as, b :: bs =>
    if a < b then true
    else if b < a then false
    else strCmpLe as bs

/-- Source: the grouping key `[link.fromId, link.toId].sort().join('-')` of the
link renderer (src/App.tsx line 853, src/unnamed/part_000 line 521). -/
def sortedPairKey (a b : String) : String :=
  if strCmpLe a.data b.data = true then a ++ "-" ++ b else b ++ "-" ++ a

/-- The grouping key of one link. -/
def linkKey (l : BoardLink) : String :=
  sortedPairKey l.fromId l.toId

/-- The sibling group of a link: all links with the same grouping key, in
collection order (the renderer builds `linkGroups[key]` by a forward pass, so
the group list preserves the order of `boardLinks`). -/
def siblingsOf (links : List BoardLink) (l : BoardLink) : List BoardLink :=
  links.filter fun l2 => linkKey l2 == linkKey l

/-- Source: the perpendicular fan-out offset of one link (src/App.tsx lines
873-887): `index` is `siblings.findIndex(l => l.id === link.id)`, `count` the
sibling count, `spread = 30`, and the offset is
`(index - (count - 1) / 2) * spread`. -/
def linkOffset (links : List BoardLink) (l : BoardLink) : ℚ :=
  let siblings := siblingsOf links l
  let index := siblings.findIdx fun l2 => l2.id == l.id
  ((index : ℚ) - ((siblings.length : ℚ) - 1) / 2) * 30

/-- Modelled from the claim wording of C7: the group of links whose unordered
endpoint pair is `{a, b}`.  This is the spec-side grouping, to be compared
with the renderer's key-based grouping `siblingsOf`. -/
def samePair (a b : String) (l : BoardLink) : Bool :=
  (l.fromId == a && l.toId == b) || (l.fromId == b && l.toId == a)

/-- Spec-side group of parallel links between the unordered pair `{a, b}`. -/
def pairGroup (links : List BoardLink) (a b : String) : List BoardLink :=
  links.filter (samePair a b)

/-- Rendering screen position of a board point under a transform:
`screen = board * scale + offset` (the CSS `translate(x,y) scale(s)` with
origin `0 0`, src/App.tsx line 1045). -/
def toScreen (t : Transform) (p : ℚ × ℚ) : ℚ × ℚ :=
  (p.1 * t.s + t.x, p.2 * t.s + t.y)

/-- Source: `getBoardCoordinates` (src/App.tsx lines 512-519):
`board = (client - rectOrigin - offset) / scale`. -/
def getBoardCoordinates (t : Transform) (rectLeft rectTop clientX clientY : ℚ) :
    ℚ × ℚ :=
  ((clientX - rectLeft - t.x) / t.s, (clientY - rectTop - t.y) / t.s)

/-- Source: `handleWheel` of src/App.tsx (lines 682-687).  Inside focus mode
the event is ignored; otherwise only the scale changes, clamped as
`Math.min(Math.max(0.1, s - deltaY * 0.001), 5)`; the offsets `x, y` are kept. -/
def handleWheelMain (focusModeId : Option String) (t : Transform) (deltaY : ℚ) :
    Transform :=
  match focusModeId with
  | some _ => t
  | none => { t with s := min (max (1 / 10) (t.s - deltaY * (1 / 1000))) 5 }

/-- Source: `handleWheel` of src/unnamed/part_000 (lines 452-466).  The new
scale is `Math.min(Math.max(s - deltaY * 0.001, 0.1), 5)`; the board point
under the mouse is computed with the old transform and the offsets are
recomputed as `mouse - board * newScale`.  `mouseX, mouseY` are the cursor
coordinates relative to the container rect. -/
def handleWheelRoom (t : Transform) (deltaY mouseX mouseY : ℚ) : Transform :=
  let newScale := min (max (t.s - deltaY * (1 / 1000)) (1 / 10)) 5
  let boardX := (mouseX - t.x) / t.s
  let boardY := (mouseY - t.y) / t.s
  { x := mouseX - boardX * newScale, y := mouseY - boardY * newScale, s := newScale }

/-- Source: the zoom-in toolbar button (src/App.tsx line 971):
`s := Math.min(s + 0.2, 5)`. -/
def zoomIn (t : Transform) : Transform :=
  { t with s := min (t.s + 1 / 5) 5 }

/-- Source: the zoom-out toolbar button (src/App.tsx line 974):
`s := Math.max(s - 0.2, 0.1)`. -/
def zoomOut (t : Transform) : Transform :=
  { t with s := max (t.s - 1 / 5) (1 / 10) }

/-- Source: the reset-view toolbar button (src/App.tsx line 977):
`setTransform({x: 0, y: 0, s: 1})`. -/
def resetView : Transform := { x := 0, y := 0, s := 1 }

/-- Source: the transform set by `enterFocusMode` (src/App.tsx lines 820-829):
`targetScale = 1.5`, offsets centre the target point in the container rect. -/
def enterFocusTransform (rectW rectH targetX targetY : ℚ) : Transform :=
  { x := rectW / 2 - targetX * (3 / 2),
    y := rectH / 2 - targetY * (3 / 2),
    s := 3 / 2 }

/-- The mutable interaction and board state of `PlanningBoard` (the `useState`
hooks of src/App.tsx lines 425-445).  The JS `Set` of deleting ids is a list
with set-like insertion; `lastMouse` models the `lastMousePos` ref. -/
structure BoardState where
  items : List BoardItem
  links : List BoardLink
  selectedId : Option String
  draggingId : Option String
  pendingLinkStart : Option String
  activeLinkVariant : LinkVariant
  activeLinkMenuId : Option String
  deletingIds : List String
  transform : Transform
  isPanning : Bool
  lastMouse : ℚ × ℚ
  cursorPos : ℚ × ℚ
  focusModeId : Option String
deriving DecidableEq

/-- Set-like insertion, modelling `new Set(prev); n.add(id)`. -/
def addDeleting (l : List String) (id : String) : List String :=
  if id ∈ l then l else l ++ [id]

/-- Source: the synchronous part of `handleDeleteItem` in src/App.tsx (lines
671-674): the id joins the deleting set and selection / focus referencing the
id are cleared immediately, before the 300ms timeout is scheduled. -/
def deleteStart (st : BoardState) (id : String) : BoardState :=
  { st with
    deletingIds := addDeleting st.deletingIds id,
    selectedId := if st.selectedId = some id then none else st.selectedId,
    focusModeId := if st.focusModeId = some id then none else st.focusModeId }

/-- Source: the deferred callback of `handleDeleteItem` in src/App.tsx (lines
675-679), run after the 300ms delay: the node is removed, every link touching
it is removed, and the id leaves the deleting set. -/
def deleteFinish (st : BoardState) (id : String) : BoardState :=
  { st with
    items := st.items.filter fun item => ¬(item.id = id),
    links := st.links.filter fun l => l.fromId ≠ id ∧ l.toId ≠ id,
    deletingIds := st.deletingIds.filter fun d => ¬(d = id) }

/-- Source: the synchronous part of `handleDeleteItem` in src/unnamed/part_000
(line 470): only the deleting set changes; selection and focus are untouched
until the timeout fires. -/
def deleteStartRoom (st : BoardState) (id : String) : BoardState :=
  { st with deletingIds := addDeleting st.deletingIds id }

/-- Source: the deferred callback of `handleDeleteItem` in src/unnamed/part_000
(lines 471-477): removal of the node, its links and the deleting-set entry,
and THEN the clearing of selection / focus referencing the id. -/
def deleteFinishRoom (st : BoardState) (id : String) : BoardState :=
  { st with
    items := st.items.filter fun item => ¬(item.id = id),
    links := st.links.filter fun l => l.fromId ≠ id ∧ l.toId ≠ id,
    deletingIds := st.deletingIds.filter fun d => ¬(d = id),
    selectedId := if st.selectedId = some id then none else st.selectedId,
    focusModeId := if st.focusModeId = some id then none else st.focusModeId }

/-- Source: `handleMouseDown` (src/App.tsx lines 730-770, identical logic in
src/unnamed/part_000 line 510).  `target` is the pressed node id (`none` for
the canvas), `button` the mouse button, `freshId` the id generated for a link
created by a pending-link resolution.  `lastMousePos` is updated first in all
paths. -/
def handleMouseDown (st : BoardState) (button : ℕ) (clientX clientY : ℚ)
    (target : Option String) (freshId : String) : BoardState :=
  let st0 := { st with lastMouse := (clientX, clientY) }
  match target with
  | none =>
    if button = 0 then
      match st0.pendingLinkStart with
      | some _ => { st0 with pendingLinkStart := none }
      | none =>
        { st0 with
          isPanning := true, selectedId := none, activeLinkMenuId := none,
          focusModeId := none }
    else st0
  | some id =>
    match st0.pendingLinkStart with
    | some src =>
      if src ≠ id then
        { st0 with
          links := st0.links ++
            [{ id := freshId, fromId := src, toId := id,
               variant := st0.activeLinkVariant }],
          pendingLinkStart := none }
      else { st0 with pendingLinkStart := none }
    | none =>
      match st0.items.find? (fun i => i.id == id) with
      | none => st0
      | some item =>
        { st0 with
          selectedId := some id, activeLinkMenuId := none,
          draggingId := if item.isLocked then st0.draggingId else some id }

/-- Source: `handleContainerMouseMove` (src/App.tsx lines 772-805, identical
in src/unnamed/part_000 lines 511-515).  A pending link updates the live
cursor board position; a pan (only outside focus mode) moves the offsets by
the pointer delta and returns; otherwise an active drag moves only the dragged
item by the pointer delta divided by the scale. -/
def handleContainerMouseMove (st : BoardState) (rectLeft rectTop clientX clientY : ℚ) :
    BoardState :=
  let st1 :=
    match st.pendingLinkStart with
    | some _ =>
      { st with cursorPos := getBoardCoordinates st.transform rectLeft rectTop clientX clientY }
    | none => st
  let dx := clientX - st.lastMouse.1
  let dy := clientY - st.lastMouse.2
  if st.isPanning = true ∧ st.focusModeId = none then
    { st1 with
      transform := { st1.transform with x := st1.transform.x + dx, y := st1.transform.y + dy },
      lastMouse := (clientX, clientY) }
  else
    match st.draggingId with
    | some dId =>
      { st1 with
        items := st1.items.map fun item =>
          if item.id = dId then
            { item with x := item.x + dx / st.transform.s, y := item.y + dy / st.transform.s }
          else item,
        lastMouse := (clientX, clientY) }
    | none => st1

/-- The wizard form state of the task-creation modal (src/App.tsx lines
442-445): task description, selected goal id (`""` when nothing is selected,
`"new_goal"` for the create-new-goal option), new-goal name, optional source. -/
structure WizardState where
  taskName : String
  goalId : String
  newGoalName : String
  sourceId : Option String
deriving DecidableEq

/-- Source: the source-resolution step of `handleCreateLinkedTask`
(src/App.tsx lines 594-597): the explicitly given source if it exists,
otherwise the first objective-type node, otherwise none. -/
def resolveWizardSource (items : List BoardItem) (w : WizardState) :
    Option BoardItem :=
  match w.sourceId with
  | some sid =>
    match items.find? (fun i => i.id == sid) with
    | some it => some it
    | none => items.find? (fun i => i.type == ItemType.objective)
  | none => items.find? (fun i => i.type == ItemType.objective)

/-- Source: `handleCreateLinkedTask` (src/App.tsx lines 591-665).  `center` is
the viewport centre used when no source resolves; `taskId`, `newGoalId`,
`linkId1`, `linkId2` are the randomly generated fresh ids.  Returns the new
`(items, links)` collections produced by the single atomic update. -/
def handleCreateLinkedTask (items : List BoardItem) (links : List BoardLink)
    (cosF sinF : ℚ → ℚ) (center : ℚ × ℚ) (w : WizardState)
    (taskId newGoalId linkId1 linkId2 : String) :
    List BoardItem × List BoardLink :=
  let sourceItem := resolveWizardSource items w
  let refX := match sourceItem with | some it => it.x | none => center.1
  let refY := match sourceItem with | some it => it.y | none => center.2
  let taskDims := getItemDimensions .sticky
  let taskPos := findBestPosition items cosF sinF refX refY taskDims.1 taskDims.2
    (match sourceItem with | some _ => .gridBelow | none => .spiral)
  let newTask : BoardItem :=
    { id := taskId, type := .sticky,
      content := if w.taskName = "" then "New Task" else w.taskName,
      x := taskPos.1, y := taskPos.2, color := some "bg-yellow-200",
      isCompleted := false, isLocked := false }
  let sourceLinks : List BoardLink :=
    match sourceItem with
    | some src =>
      [{ id := linkId1, fromId := src.id, toId := taskId, variant := .critical }]
    | none => []
  let createNewGoal := w.goalId = "new_goal" ∨ (w.goalId = "" ∧ w.newGoalName ≠ "")
  let goalItems : List BoardItem :=
    if createNewGoal then
      let goalDims := getItemDimensions .goal
      let goalPos := findBestPosition items cosF sinF taskPos.1 taskPos.2
        goalDims.1 goalDims.2 .gridBelow
      [{ id := newGoalId, type := .goal,
         content := if w.newGoalName = "" then "New Goal" else w.newGoalName,
         x := goalPos.1, y := goalPos.2, color := none,
         isCompleted := false, isLocked := false }]
    else []
  let targetGoalId := if createNewGoal then newGoalId else w.goalId
  let goalLinks : List BoardLink :=
    if targetGoalId ≠ "" ∧ targetGoalId ≠ "new_goal" then
      [{ id := linkId2, fromId := taskId, toId := targetGoalId, variant := .positive }]
    else []
  (items ++ [newTask] ++ goalItems, links ++ sourceLinks ++ goalLinks)

/-- Claim-side reading of the overlap test (C4): BOTH the candidate rectangle
and the node's box expanded by the 40-unit buffer, strict intersection on both
axis projections. -/
def specBufferedIntersect (x y width height : ℚ) (item : BoardItem) : Prop :=
  x - 40 < item.x + (getItemDimensions item.type).1 + 40 ∧
  item.x - 40 < x + width + 40 ∧
  y - 40 < item.y + (getItemDimensions item.type).2 + 40 ∧
  item.y - 40 < y + height + 40

/-- What `checkOverlap` actually tests per node: the candidate rectangle
expanded by the 40-unit buffer on every side, strictly intersecting the node's
unexpanded box on both axis projections (the buffer is applied once, not to
both boxes). -/
def bufferedIntersect (x y width height : ℚ) (item : BoardItem) : Prop :=
  x - 40 < item.x + (getItemDimensions item.type).1 ∧
  item.x < x + width + 40 ∧
  y - 40 < item.y + (getItemDimensions item.type).2 ∧
  item.y < y + height + 40

/- ------------------------------------------------------------------ -/
/- Helper lemmas                                                       -/
/- ------------------------------------------------------------------ -/

lemma spiralGo_zero (boardItems : List BoardItem) (width height : ℚ)
    (cosF sinF : ℚ → ℚ) (refX refY angle radius x y : ℚ) :
    spiralGo boardItems width height cosF sinF refX refY 0 angle radius x y = (x, y) :=
  rfl

lemma spiralGo_succ (boardItems : List BoardItem) (width height : ℚ)
    (cosF sinF : ℚ → ℚ) (refX refY : ℚ) (fuel : ℕ) (angle radius x y : ℚ) :
    spiralGo boardItems width height cosF sinF refX refY (fuel + 1) angle radius x y =
      if checkOverlap boardItems x y width height none then
        spiralGo boardItems width height cosF sinF refX refY fuel (angle + 4 / 5)
          (radius + 15) (refX + cosF (angle + 4 / 5) * (radius + 15))
          (refY + sinF (angle + 4 / 5) * (radius + 15))
      else (x, y) :=
  rfl

/-- The spiral loop, started at attempt `a` with the matching state, stops at
the first non-overlapping candidate, or at attempt `a + fuel` when the budget
runs out. -/
lemma spiralGo_spec (boardItems : List BoardItem) (width height : ℚ)
    (cosF sinF : ℚ → ℚ) (refX refY : ℚ) :
    ∀ (fuel a : ℕ),
      ∃ k : ℕ, a ≤ k ∧ k ≤ a + fuel ∧
        spiralGo boardItems width height cosF sinF refX refY fuel
            (4 / 5 * a) (15 * a)
            (spiralCandidate cosF sinF refX refY a).1
            (spiralCandidate cosF sinF refX refY a).2 =
          spiralCandidate cosF sinF refX refY k ∧
        (∀ j : ℕ, a ≤ j → j < k →
          spiralOverlap boardItems cosF sinF refX refY width height j = true) ∧
        (spiralOverlap boardItems cosF sinF refX refY width height k = false ∨
          k = a + fuel) := by
  intro fuel
  induction fuel with
  | zero =>
    intro a
    exact ⟨a, le_refl a, by omega, rfl, fun j h1 h2 => absurd h2 (by omega),
      Or.inr (by omega)⟩
  | succ fuel ih =>
    intro a
    cases hov : spiralOverlap boardItems cosF sinF refX refY width height a with
    | true =>
      have hov2 : checkOverlap boardItems
          (spiralCandidate cosF sinF refX refY a).1
          (spiralCandidate cosF sinF refX refY a).2 width height none = true := hov
      have hang : (4 / 5 : ℚ) * a + 4 / 5 = 4 / 5 * ((a + 1 : ℕ) : ℚ) := by
        push_cast; ring
      have hrad : (15 : ℚ) * a + 15 = 15 * ((a + 1 : ℕ) : ℚ) := by
        push_cast; ring
      have hstep :
          spiralGo boardItems width height cosF sinF refX refY (fuel + 1)
              (4 / 5 * a) (15 * a)
              (spiralCandidate cosF sinF refX refY a).1
              (spiralCandidate cosF sinF refX refY a).2 =
            spiralGo boardItems width height cosF sinF refX refY fuel
              (4 / 5 * ((a + 1 : ℕ) : ℚ)) (15 * ((a + 1 : ℕ) : ℚ))
              (spiralCandidate cosF sinF refX refY (a + 1)).1
              (spiralCandidate cosF sinF refX refY (a + 1)).2 := by
        rw [spiralGo_succ, if_pos hov2, hang, hrad]
        rfl
      obtain ⟨k, hk1, hk2, hk3, hk4, hk5⟩ := ih (a + 1)
      refine ⟨k, by omega, by omega, ?_, ?_, ?_⟩
      · rw [hstep]; exact hk3
      · intro j hj1 hj2
        rcases Nat.eq_or_lt_of_le hj1 with he | hl
        · rw [← he]; exact hov
        · exact hk4 j (by omega) hj2
      · rcases hk5 with h | h
        · exact Or.inl h
        · exact Or.inr (by omega)
    | false =>
      have hov2 : ¬(checkOverlap boardItems
          (spiralCandidate cosF sinF refX refY a).1
          (spiralCandidate cosF sinF refX refY a).2 width height none = true) := by
        intro hcontra
        have : spiralOverlap boardItems cosF sinF refX refY width height a = true :=
          hcontra
        rw [hov] at this
        cases this
      refine ⟨a, le_refl a, by omega, ?_, fun j h1 h2 => absurd h2 (by omega),
        Or.inl hov⟩
      rw [spiralGo_succ, if_neg hov2]

lemma mem_addDeleting (l : List String) (id : String) : id ∈ addDeleting l id := by
  unfold addDeleting
  split
  · assumption
  · simp

/-- Evaluation of the sum of centred-index terms. -/
lemma sum_centered (n : ℕ) (c : ℚ) :
    (((List.range n).map fun (i : ℕ) => ((i : ℚ) - c) * 30).sum) =
      ((n : ℚ) * ((n : ℚ) - 1) / 2 - (n : ℚ) * c) * 30 := by
  induction n with
  | zero => simp
  | succ n ih =>
    rw [List.range_succ, List.map_append, List.sum_append, ih]
    push_cast
    simp only [List.map_cons, List.map_nil, List.sum_cons, List.sum_nil]
    ring

/-- In a list of links with pairwise distinct ids, `findIndex` by id recovers
the position. -/
lemma findIdx_id_eq (g : List BoardLink) (hnd : (g.map BoardLink.id).Nodup) :
    ∀ (i : ℕ) (hi : i < g.length),
      g.findIdx (fun l2 => l2.id == g[i].id) = i := by
  induction g with
  | nil => intro i hi; simp at hi
  | cons x xs ih =>
    intro i hi
    cases i with
    | zero => simp [List.findIdx_cons]
    | succ i =>
      have hi2 : i < xs.length := by simpa using hi
      have hmem : xs[i].id ∈ xs.map BoardLink.id :=
        List.mem_map_of_mem BoardLink.id (List.getElem_mem hi2)
      have hx : ¬(x.id == xs[i].id) = true := by
        simp only [beq_iff_eq]
        intro he
        rw [List.map_cons, List.nodup_cons] at hnd
        exact hnd.1 (he ▸ hmem)
      have hnd2 : (xs.map BoardLink.id).Nodup := by
        rw [List.map_cons, List.nodup_cons] at hnd
        exact hnd.2
      simp only [List.getElem_cons_succ, List.findIdx_cons, hx, cond_false]
      rw [ih hnd2 i hi2]

/-- For a link inside a key group, its sibling list is exactly the key group. -/
lemma siblingsOf_eq_group (links : List BoardLink) (key : String) (l : BoardLink)
    (hl : l ∈ links.filter fun l2 => linkKey l2 == key) :
    siblingsOf links l = links.filter fun l2 => linkKey l2 == key := by
  have hkey : linkKey l = key := by
    have h2 := (List.mem_filter.mp hl).2
    simpa using h2
  simp [siblingsOf, hkey]

/-- A resolved wizard source is one of the existing items. -/
lemma resolveWizardSource_mem (items : List BoardItem) (w : WizardState)
    (src : BoardItem) (h : resolveWizardSource items w = some src) :
    src ∈ items := by
  unfold resolveWizardSource at h
  cases hws : w.sourceId with
  | none =>
    rw [hws] at h
    exact List.mem_of_find?_eq_some h
  | some sid =>
    rw [hws] at h
    have h2 : (match items.find? (fun i => i.id == sid) with
        | some it => some it
        | none => items.find? (fun i => i.type == ItemType.objective)) = some src := h
    cases hf : items.find? (fun i => i.id == sid) with
    | none =>
      rw [hf] at h2
      exact List.mem_of_find?_eq_some h2
    | some it =>
      rw [hf] at h2
      have hit : it = src := Option.some.inj h2
      exact hit ▸ List.mem_of_find?_eq_some hf

/- ------------------------------------------------------------------ -/
/- Claim theorems                                                      -/
/- ------------------------------------------------------------------ -/

/-- C1: cascade integrity.  For every node deletion, once the delete operation
completes (start phase followed by the deferred 300ms phase), the deleted id
is absent from the node collection and no remaining link references it as
`fromId` or `toId` — in both source variants. -/
theorem cascade_integrity (st : BoardState) (id : String) :
    ((deleteFinish (deleteStart st id) id).items.all fun item => ¬(item.id = id)) = true ∧
    ((deleteFinish (deleteStart st id) id).links.all
      fun l => l.fromId ≠ id ∧ l.toId ≠ id) = true ∧
    ((deleteFinishRoom (deleteStartRoom st id) id).items.all
      fun item => ¬(item.id = id)) = true ∧
    ((deleteFinishRoom (deleteStartRoom st id) id).links.all
      fun l => l.fromId ≠ id ∧ l.toId ≠ id) = true := by
  refine ⟨?_, ?_, ?_, ?_⟩ <;>
    · simp only [deleteFinish, deleteFinishRoom, deleteStart, deleteStartRoom,
        List.all_eq_true, decide_eq_true_eq]
      intro l hl
      have := List.mem_filter.mp hl
      simpa using this.2

/-- C2 counterexample: in the `src/App.tsx` wheel handler, outside focus mode,
the offsets are NOT recomputed: starting from the identity transform, a wheel
event with `deltaY = -1000` rescales to 2 while keeping the offsets, so the
board point that was under the cursor at screen pixel `(100, 100)` now maps to
`(200, 200)`. -/
theorem zoom_to_cursor_counterexample :
    toScreen (handleWheelMain none { x := 0, y := 0, s := 1 } (-1000))
        (getBoardCoordinates { x := 0, y := 0, s := 1 } 0 0 100 100) ≠ (100, 100) ∧
    handleWheelMain none { x := 0, y := 0, s := 1 } (-1000) =
      { x := 0, y := 0, s := 2 } := by
  constructor
  · norm_num [toScreen, handleWheelMain, getBoardCoordinates, Prod.ext_iff]
  · norm_num [handleWheelMain]

/-- C2 amended: the zoom-to-cursor recomputation is implemented only by the
`src/unnamed/part_000` wheel handler, where the board point under the cursor
maps exactly to the same screen pixel after rescaling; the `src/App.tsx` wheel
handler (outside focus mode) changes only the clamped scale and keeps the
offsets unchanged.  Both clamp the new scale to `[0.1, 5]`. -/
theorem zoom_to_cursor_amended (t : Transform) (deltaY mouseX mouseY : ℚ) :
    toScreen (handleWheelRoom t deltaY mouseX mouseY)
        (getBoardCoordinates t 0 0 mouseX mouseY) = (mouseX, mouseY) ∧
    (handleWheelMain none t deltaY).x = t.x ∧
    (handleWheelMain none t deltaY).y = t.y ∧
    1 / 10 ≤ (handleWheelMain none t deltaY).s ∧
    (handleWheelMain none t deltaY).s ≤ 5 ∧
    1 / 10 ≤ (handleWheelRoom t deltaY mouseX mouseY).s ∧
    (handleWheelRoom t deltaY mouseX mouseY).s ≤ 5 := by
  refine ⟨?_, rfl, rfl, ?_, ?_, ?_, ?_⟩
  · simp only [toScreen, handleWheelRoom, getBoardCoordinates, Prod.ext_iff]
    constructor <;> ring
  · exact le_min (le_max_left _ _) (by norm_num)
  · exact min_le_right _ _
  · exact le_min (le_max_right _ _) (by norm_num)
  · exact min_le_right _ _

/-- C3: spiral placement.  The spiral walk returns the first candidate (radius
step 15, angle step 0.8) that does not overlap any existing node; in
particular a non-overlapping reference point is returned unchanged, a
non-overlapping candidate within the 200-attempt budget guarantees a
non-overlapping result, an exhausted budget returns the last (200th)
candidate, and the result is always one of the spiral candidates. -/
theorem spiral_placement (boardItems : List BoardItem) (cosF sinF : ℚ → ℚ)
    (refX refY width height : ℚ) :
    (∃ k : ℕ, k ≤ 200 ∧
      findBestPosition boardItems cosF sinF refX refY width height .spiral =
        spiralCandidate cosF sinF refX refY k ∧
      (∀ j : ℕ, j < k →
        spiralOverlap boardItems cosF sinF refX refY width height j = true) ∧
      (spiralOverlap boardItems cosF sinF refX refY width height k = false ∨ k = 200)) ∧
    (spiralOverlap boardItems cosF sinF refX refY width height 0 = false →
      findBestPosition boardItems cosF sinF refX refY width height .spiral =
        (refX, refY)) ∧
    ((∃ k : ℕ, k ≤ 200 ∧
        spiralOverlap boardItems cosF sinF refX refY width height k = false) →
      checkOverlap boardItems
        (findBestPosition boardItems cosF sinF refX refY width height .spiral).1
        (findBestPosition boardItems cosF sinF refX refY width height .spiral).2
        width height none = false) ∧
    ((∀ k : ℕ, k ≤ 200 →
        spiralOverlap boardItems cosF sinF refX refY width height k = true) →
      findBestPosition boardItems cosF sinF refX refY width height .spiral =
        spiralCandidate cosF sinF refX refY 200) := by
  have hstart : findBestPosition boardItems cosF sinF refX refY width height .spiral =
      spiralGo boardItems width height cosF sinF refX refY 200
        (4 / 5 * ((0 : ℕ) : ℚ)) (15 * ((0 : ℕ) : ℚ))
        (spiralCandidate cosF sinF refX refY 0).1
        (spiralCandidate cosF sinF refX refY 0).2 := by
    simp [findBestPosition, spiralCandidate]
  obtain ⟨k, hk0, hk1, hk2, hk3, hk4⟩ :=
    spiralGo_spec boardItems width height cosF sinF refX refY 200 0
  have hchar : findBestPosition boardItems cosF sinF refX refY width height .spiral =
      spiralCandidate cosF sinF refX refY k := by rw [hstart, hk2]
  have hcand0 : spiralCandidate cosF sinF refX refY 0 = (refX, refY) := by
    simp [spiralCandidate]
  refine ⟨⟨k, by omega, hchar, fun j hj => hk3 j (by omega) hj, ?_⟩, ?_, ?_, ?_⟩
  · rcases hk4 with h | h
    · exact Or.inl h
    · exact Or.inr (by omega)
  · intro h0
    have hkz : k = 0 := by
      by_contra hne
      have := hk3 0 (by omega) (by omega)
      rw [h0] at this
      cases this
    rw [hchar, hkz, hcand0]
  · rintro ⟨m, hm1, hm2⟩
    have hkov : spiralOverlap boardItems cosF sinF refX refY width height k = false := by
      rcases hk4 with h | h
      · exact h
      · by_cases hmk : m = k
        · rw [← hmk]; exact hm2
        · have := hk3 m (by omega) (by omega)
          rw [hm2] at this
          cases this
    rw [hchar]
    exact hkov
  · intro hall
    have hk200 : k = 200 := by
      rcases hk4 with h | h
      · have := hall k (by omega)
        rw [h] at this
        cases this
      · omega
    rw [hchar, hk200]

/-- C3 witness: on an empty board the spiral placement returns the reference
point unchanged. -/
theorem spiral_placement_witness :
    findBestPosition [] (fun _ => 0) (fun _ => 0) 3 4 180 180 .spiral = (3, 4) :=
  (spiral_placement [] (fun _ => 0) (fun _ => 0) 3 4 180 180).2.1 rfl

/-- The single node of the C4 counterexample board: a sticky at the origin. -/
def overlapCexItem : BoardItem :=
  { id := "n1", type := .sticky, content := "", x := 0, y := 0, color := none,
    isCompleted := false, isLocked := false }

/-- A one-node board used by the C4 counterexample. -/
def overlapCexItems : List BoardItem := [overlapCexItem]

/-- C4 counterexample: `checkOverlap` applies the 40-unit buffer once, not to
both boxes.  For a candidate at `x = 250` against a 180-wide sticky at the
origin the gap is 70: the claim's symmetric double-buffer test reports an
intersection, but `checkOverlap` returns `false`. -/
theorem overlap_semantics_counterexample :
    checkOverlap overlapCexItems 250 0 180 180 none = false ∧
    ∃ item ∈ overlapCexItems, some item.id ≠ (none : Option String) ∧
      specBufferedIntersect 250 0 180 180 item := by
  constructor
  · norm_num [checkOverlap, overlapCexItems, overlapCexItem, getItemDimensions]
  · refine ⟨overlapCexItem, by simp [overlapCexItems], by simp, ?_⟩
    norm_num [specBufferedIntersect, getItemDimensions, overlapCexItem]

/-- C4 amended: `checkOverlap x y w h exclude` returns `true` iff some node
other than `exclude` has its (unexpanded) box strictly intersected, on both
axis projections, by the candidate rectangle expanded by the 40-unit buffer —
the buffer is applied once, not to both boxes. -/
theorem overlap_semantics_amended (boardItems : List BoardItem)
    (x y width height : ℚ) (excludeId : Option String) :
    checkOverlap boardItems x y width height excludeId = true ↔
      ∃ item ∈ boardItems, some item.id ≠ excludeId ∧
        bufferedIntersect x y width height item := by
  simp only [checkOverlap, List.any_eq_true]
  constructor
  · rintro ⟨item, hmem, hcond⟩
    by_cases he : some item.id = excludeId
    · rw [if_pos he] at hcond
      cases hcond
    · rw [if_neg he] at hcond
      obtain ⟨h1, h2, h3, h4⟩ := of_decide_eq_true hcond
      exact ⟨item, hmem, he,
        ⟨by linarith, by linarith, by linarith, by linarith⟩⟩
  · rintro ⟨item, hmem, he, h1, h2, h3, h4⟩
    refine ⟨item, hmem, ?_⟩
    rw [if_neg he]
    exact decide_eq_true ⟨by linarith, by linarith, by linarith, by linarith⟩

/-- The single node of the C5 counterexample board. -/
def deleteCexItem : BoardItem :=
  { id := "1", type := .goal, content := "G", x := 0, y := 0, color := none,
    isCompleted := false, isLocked := false }

/-- A concrete board state used by the C5 counterexample: node "1" is both
selected and the focus target. -/
def deleteCexState : BoardState :=
  { items := [deleteCexItem],
    links := [], selectedId := some "1", draggingId := none,
    pendingLinkStart := none, activeLinkVariant := .critical,
    activeLinkMenuId := none, deletingIds := [],
    transform := { x := 0, y := 0, s := 1 }, isPanning := false,
    lastMouse := (0, 0), cursorPos := (0, 0), focusModeId := some "1" }

/-- C5 counterexample: in the `src/unnamed/part_000` variant of
`handleDeleteItem`, deleting the currently selected / focused node "1" leaves
the selection and the focus target untouched at call time — they are only
cleared inside the 300ms-deferred callback, contradicting the claim's
"cleared immediately at call time, not deferred". -/
theorem delete_timing_counterexample :
    deleteCexState.selectedId = some "1" ∧
    deleteCexState.focusModeId = some "1" ∧
    (deleteStartRoom deleteCexState "1").selectedId = some "1" ∧
    (deleteStartRoom deleteCexState "1").focusModeId = some "1" :=
  ⟨rfl, rfl, rfl, rfl⟩

/-- C5 amended: in both variants the id enters the deleting set at call time
and the node and its links are removed only in the deferred (300ms) phase.
Selection and focus referencing the id are cleared immediately at call time in
the `src/App.tsx` variant, but only in the deferred phase in the
`src/unnamed/part_000` variant. -/
theorem delete_timing_amended (st : BoardState) (id : String) :
    (id ∈ (deleteStart st id).deletingIds ∧
     id ∈ (deleteStartRoom st id).deletingIds) ∧
    ((deleteStart st id).items = st.items ∧
     (deleteStart st id).links = st.links ∧
     (deleteStartRoom st id).items = st.items ∧
     (deleteStartRoom st id).links = st.links) ∧
    ((deleteFinish (deleteStart st id) id).items =
        st.items.filter (fun item => ¬(item.id = id)) ∧
     (deleteFinish (deleteStart st id) id).links =
        st.links.filter (fun l => l.fromId ≠ id ∧ l.toId ≠ id)) ∧
    ((deleteStart st id).selectedId =
        (if st.selectedId = some id then none else st.selectedId) ∧
     (deleteStart st id).focusModeId =
        (if st.focusModeId = some id then none else st.focusModeId)) ∧
    ((deleteStartRoom st id).selectedId = st.selectedId ∧
     (deleteStartRoom st id).focusModeId = st.focusModeId) ∧
    ((deleteFinishRoom st id).selectedId =
        (if st.selectedId = some id then none else st.selectedId) ∧
     (deleteFinishRoom st id).focusModeId =
        (if st.focusModeId = some id then none else st.focusModeId)) := by
  refine ⟨⟨mem_addDeleting _ _, mem_addDeleting _ _⟩, ⟨rfl, rfl, rfl, rfl⟩,
    ⟨rfl, rfl⟩, ⟨rfl, rfl⟩, ⟨rfl, rfl⟩, ⟨rfl, rfl⟩⟩

/-- C6: link-pending gesture resolution.  With a pending link from `src`, a
primary-button press on empty canvas or a press on the source itself clears
the pending state and leaves nodes and links untouched; a press on a
different node appends exactly one link `src → target` with the pending
variant and clears the pending state; no link created this way is a
self-loop. -/
theorem link_pending_resolution (st : BoardState) (src : String)
    (h : st.pendingLinkStart = some src) (button : ℕ) (clientX clientY : ℚ)
    (freshId : String) (target : String) :
    ((handleMouseDown st 0 clientX clientY none freshId).pendingLinkStart = none ∧
     (handleMouseDown st 0 clientX clientY none freshId).items = st.items ∧
     (handleMouseDown st 0 clientX clientY none freshId).links = st.links) ∧
    ((handleMouseDown st button clientX clientY (some src) freshId).pendingLinkStart = none ∧
     (handleMouseDown st button clientX clientY (some src) freshId).items = st.items ∧
     (handleMouseDown st button clientX clientY (some src) freshId).links = st.links) ∧
    (target ≠ src →
      (handleMouseDown st button clientX clientY (some target) freshId).links =
        st.links ++ [{ id := freshId, fromId := src, toId := target,
                       variant := st.activeLinkVariant }] ∧
      (handleMouseDown st button clientX clientY (some target) freshId).items = st.items ∧
      (handleMouseDown st button clientX clientY (some target) freshId).pendingLinkStart =
        none ∧
      src ≠ target) := by
  refine ⟨?_, ?_, ?_⟩
  · simp [handleMouseDown, h]
  · simp [handleMouseDown, h]
  · intro ht
    have hst : src ≠ target := Ne.symm ht
    simp [handleMouseDown, h, hst]

/-- A concrete board state with a pending link from "a", used by the C6
witness. -/
def pendingCexState : BoardState :=
  { items := [], links := [], selectedId := none, draggingId := none,
    pendingLinkStart := some "a", activeLinkVariant := .positive,
    activeLinkMenuId := none, deletingIds := [],
    transform := { x := 0, y := 0, s := 1 }, isPanning := false,
    lastMouse := (0, 0), cursorPos := (0, 0), focusModeId := none }

/-- C6 witness: resolving the pending link onto a different node "b" appends
exactly the link a → b with the pending variant. -/
theorem link_pending_resolution_witness :
    (handleMouseDown pendingCexState 0 0 0 (some "b") "L").links =
      pendingCexState.links ++ [{ id := "L", fromId := "a", toId := "b",
                                  variant := pendingCexState.activeLinkVariant }] ∧
    (handleMouseDown pendingCexState 0 0 0 (some "b") "L").items =
      pendingCexState.items ∧
    (handleMouseDown pendingCexState 0 0 0 (some "b") "L").pendingLinkStart = none ∧
    "a" ≠ "b" :=
  (link_pending_resolution pendingCexState "a" rfl 0 0 0 "L" "b").2.2 (by decide)

/-- First link of the C7 counterexample: endpoints "x" and "y-z". -/
def fanoutCexLinkA : BoardLink :=
  { id := "A", fromId := "x", toId := "y-z", variant := .neutral }

/-- Second link of the C7 counterexample: endpoints "x-y" and "z" — a
DIFFERENT unordered pair whose sorted-and-joined key "x-y-z" collides with the
first link's key. -/
def fanoutCexLinkB : BoardLink :=
  { id := "B", fromId := "x-y", toId := "z", variant := .neutral }

/-- The two-link collection of the C7 counterexample. -/
def fanoutCexLinks : List BoardLink := [fanoutCexLinkA, fanoutCexLinkB]

/-- C7 counterexample: the renderer groups by `sort(fromId,toId).join('-')`,
and the key "x-y-z" collides for the distinct unordered pairs {x, y-z} and
{x-y, z}.  The group of links sharing the unordered pair {x, y-z} is the
single link A (k = 1), whose claimed offset would be 30 × (0 − 0) = 0, yet
the renderer computes −15 for it, so the group's offset sum is −15 ≠ 0 —
with all link ids distinct. -/
theorem fanout_symmetry_counterexample :
    (fanoutCexLinks.map BoardLink.id).Nodup ∧
    pairGroup fanoutCexLinks "x" "y-z" = [fanoutCexLinkA] ∧
    ((pairGroup fanoutCexLinks "x" "y-z").map (linkOffset fanoutCexLinks)).sum ≠ 0 := by
  refine ⟨by decide, by decide, ?_⟩
  have h1 : siblingsOf fanoutCexLinks fanoutCexLinkA = fanoutCexLinks := by decide
  have h2 : fanoutCexLinks.findIdx (fun l2 => l2.id == fanoutCexLinkA.id) = 0 := by
    decide
  have h3 : linkOffset fanoutCexLinks fanoutCexLinkA = -15 := by
    simp only [linkOffset]
    rw [h1, h2]
    norm_num [fanoutCexLinks]
  rw [show pairGroup fanoutCexLinks "x" "y-z" = [fanoutCexLinkA] by decide]
  simp [h3]

/-- C7 amended: grouping links by the renderer's key (sorted endpoint ids
joined with "-"), any key group with pairwise-distinct link ids gets the
offsets 30 × (i − (k−1)/2) for i = 0..k−1, which sum to exactly 0.  The key
group coincides with the unordered endpoint pair whenever distinct pairs have
distinct keys (for example when node ids contain no "-"). -/
theorem fanout_symmetry_amended (links : List BoardLink) (key : String)
    (hnd : ((links.filter fun l => linkKey l == key).map BoardLink.id).Nodup) :
    ((links.filter fun l => linkKey l == key).map (linkOffset links)) =
      (List.range (links.filter fun l => linkKey l == key).length).map
        (fun (i : ℕ) =>
          ((i : ℚ) - (((links.filter fun l => linkKey l == key).length : ℚ) - 1) / 2) * 30) ∧
    ((links.filter fun l => linkKey l == key).map (linkOffset links)).sum = 0 := by
  have hmap : (links.filter fun l => linkKey l == key).map (linkOffset links) =
      (List.range (links.filter fun l => linkKey l == key).length).map
        (fun (i : ℕ) =>
          ((i : ℚ) - (((links.filter fun l => linkKey l == key).length : ℚ) - 1) / 2) * 30) := by
    apply List.ext_getElem
    · simp
    · intro i h1 h2
      have hi : i < (links.filter fun l => linkKey l == key).length := by
        simpa using h1
      simp only [List.getElem_map, List.getElem_range]
      have hmem : (links.filter fun l => linkKey l == key)[i] ∈
          links.filter fun l => linkKey l == key :=
        List.getElem_mem hi
      have hs : siblingsOf links (links.filter fun l => linkKey l == key)[i] =
          links.filter fun l => linkKey l == key :=
        siblingsOf_eq_group links key _ hmem
      simp only [linkOffset]
      rw [hs, findIdx_id_eq (links.filter fun l => linkKey l == key) hnd i hi]
  refine ⟨hmap, ?_⟩
  rw [hmap, sum_centered]
  ring

/-- First link of the C7 witness pair: "n1" → "n2". -/
def fanoutWitnessLinkA : BoardLink :=
  { id := "A", fromId := "n1", toId := "n2", variant := .critical }

/-- Second link of the C7 witness pair: "n2" → "n1", the same unordered pair. -/
def fanoutWitnessLinkB : BoardLink :=
  { id := "B", fromId := "n2", toId := "n1", variant := .neutral }

/-- Two parallel links between "n1" and "n2". -/
def fanoutWitnessLinks : List BoardLink := [fanoutWitnessLinkA, fanoutWitnessLinkB]

/-- C7 witness: the two parallel links between "n1" and "n2" get offsets
summing to 0. -/
theorem fanout_symmetry_amended_witness :
    ((fanoutWitnessLinks.filter fun l => linkKey l == "n1-n2").map
      (linkOffset fanoutWitnessLinks)).sum = 0 :=
  (fanout_symmetry_amended fanoutWitnessLinks "n1-n2" (by decide)).2

/-- C9: scale clamp invariant.  If the scale is within [0.1, 5] then it stays
within [0.1, 5] after a wheel zoom (either variant), the zoom-in and zoom-out
buttons, the reset-view button, and focus-mode entry. -/
theorem scale_clamp_invariant (t : Transform) (h1 : 1 / 10 ≤ t.s) (h2 : t.s ≤ 5)
    (focusModeId : Option String)
    (deltaY mouseX mouseY rectW rectH targetX targetY : ℚ) :
    (1 / 10 ≤ (handleWheelMain focusModeId t deltaY).s ∧
      (handleWheelMain focusModeId t deltaY).s ≤ 5) ∧
    (1 / 10 ≤ (handleWheelRoom t deltaY mouseX mouseY).s ∧
      (handleWheelRoom t deltaY mouseX mouseY).s ≤ 5) ∧
    (1 / 10 ≤ (zoomIn t).s ∧ (zoomIn t).s ≤ 5) ∧
    (1 / 10 ≤ (zoomOut t).s ∧ (zoomOut t).s ≤ 5) ∧
    (1 / 10 ≤ resetView.s ∧ resetView.s ≤ 5) ∧
    (1 / 10 ≤ (enterFocusTransform rectW rectH targetX targetY).s ∧
      (enterFocusTransform rectW rectH targetX targetY).s ≤ 5) := by
  refine ⟨?_, ?_, ?_, ?_, ?_, ?_⟩
  · cases focusModeId with
    | none => exact ⟨le_min (le_max_left _ _) (by norm_num), min_le_right _ _⟩
    | some f => exact ⟨h1, h2⟩
  · exact ⟨le_min (le_max_right _ _) (by norm_num), min_le_right _ _⟩
  · exact ⟨le_min (by linarith) (by norm_num), min_le_right _ _⟩
  · exact ⟨le_max_right _ _, max_le (by linarith) (by norm_num)⟩
  · exact ⟨by norm_num [resetView], by norm_num [resetView]⟩
  · exact ⟨by norm_num [enterFocusTransform], by norm_num [enterFocusTransform]⟩

/-- C9 witness: starting from the identity transform, the zoom-in button keeps
the scale within the clamp range. -/
theorem scale_clamp_invariant_witness :
    1 / 10 ≤ (zoomIn { x := 0, y := 0, s := 1 }).s ∧
      (zoomIn { x := 0, y := 0, s := 1 }).s ≤ 5 :=
  (scale_clamp_invariant { x := 0, y := 0, s := 1 } (by norm_num) (by norm_num)
    none 0 0 0 0 0 0 0).2.2.1

/-- C10: drag frame property.  While a drag of node `dId` is in progress (no
pan, no pending link), a pointer move changes only the dragged node, and only
its `x` and `y`, each by the pointer delta divided by the current scale; every
other node, every other field of the dragged node, the link collection and the
transform are unchanged. -/
theorem drag_frame (st : BoardState) (dId : String)
    (rectLeft rectTop clientX clientY : ℚ)
    (hpan : st.isPanning = false) (hdrag : st.draggingId = some dId)
    (hpend : st.pendingLinkStart = none) :
    (handleContainerMouseMove st rectLeft rectTop clientX clientY).items =
      st.items.map (fun item =>
        if item.id = dId then
          { item with
            x := item.x + (clientX - st.lastMouse.1) / st.transform.s,
            y := item.y + (clientY - st.lastMouse.2) / st.transform.s }
        else item) ∧
    (handleContainerMouseMove st rectLeft rectTop clientX clientY).links = st.links ∧
    (handleContainerMouseMove st rectLeft rectTop clientX clientY).transform =
      st.transform ∧
    (∀ item ∈ st.items, ¬(item.id = dId) →
      item ∈ (handleContainerMouseMove st rectLeft rectTop clientX clientY).items) := by
  have hred : handleContainerMouseMove st rectLeft rectTop clientX clientY =
      { st with
        items := st.items.map (fun item =>
          if item.id = dId then
            { item with
              x := item.x + (clientX - st.lastMouse.1) / st.transform.s,
              y := item.y + (clientY - st.lastMouse.2) / st.transform.s }
          else item),
        lastMouse := (clientX, clientY) } := by
    simp [handleContainerMouseMove, hpend, hpan, hdrag]
  refine ⟨by rw [hred], by rw [hred], by rw [hred], ?_⟩
  intro item hmem hne
  rw [hred]
  exact List.mem_map.mpr ⟨item, hmem, by rw [if_neg hne]⟩

/-- The single node of the C10 witness board. -/
def dragCexItem : BoardItem :=
  { id := "1", type := .sticky, content := "a", x := 10, y := 20, color := none,
    isCompleted := false, isLocked := false }

/-- A concrete board state with node "1" being dragged, used by the C10
witness. -/
def dragCexState : BoardState :=
  { items := [dragCexItem], links := [], selectedId := some "1",
    draggingId := some "1", pendingLinkStart := none,
    activeLinkVariant := .critical, activeLinkMenuId := none, deletingIds := [],
    transform := { x := 0, y := 0, s := 1 }, isPanning := false,
    lastMouse := (0, 0), cursorPos := (0, 0), focusModeId := none }

/-- C10 witness: a pointer move during the drag leaves the link collection
unchanged. -/
theorem drag_frame_witness :
    (handleContainerMouseMove dragCexState 0 0 5 7).links = dragCexState.links :=
  (drag_frame dragCexState "1" 0 0 5 7 rfl rfl rfl).2.1

/-- The wizard state of the C8 counterexample: no goal selected
(`goalId = ""`), but a stale new-goal name is present — reachable by choosing
"create new goal", typing a name, cancelling, and reopening the wizard with no
goals on the board. -/
def wizardCexState : WizardState :=
  { taskName := "T", goalId := "", newGoalName := "G", sourceId := none }

/-- C8 counterexample: submitting with `goalId = ""` and a non-empty new-goal
name appends a goal node although "create new goal" was NOT chosen
(`goalId ≠ "new_goal"`): on an empty board the update appends two nodes, a
sticky and a goal. -/
theorem task_wizard_counterexample :
    wizardCexState.goalId ≠ "new_goal" ∧
    ((handleCreateLinkedTask [] [] (fun _ => 0) (fun _ => 0) (400, 300) wizardCexState
        "t1" "g1" "l1" "l2").1.map BoardItem.type) = [.sticky, .goal] :=
  ⟨by decide, rfl⟩

/-- C8 amended: one wizard submission atomically appends exactly one task
node; exactly one goal node when "create new goal" was chosen OR when no goal
is selected and a non-empty new-goal name is present (otherwise none); and at
most two links — a source→task link (variant critical) iff a source resolves,
and a task→goal link (variant positive, targeting the new goal or the selected
goal) iff a target goal was determined.  The fresh-id hypotheses reflect that
generated ids are distinct from existing ids and from the reserved strings. -/
theorem task_wizard_amended
    (items : List BoardItem) (links : List BoardLink) (cosF sinF : ℚ → ℚ)
    (center : ℚ × ℚ) (w : WizardState) (taskId newGoalId linkId1 linkId2 : String)
    (hg1 : newGoalId ≠ "") (hg2 : newGoalId ≠ "new_goal")
    (ht1 : ∀ item ∈ items, item.id ≠ taskId)
    (ht2 : w.goalId ≠ taskId) (ht3 : newGoalId ≠ taskId) :
    ((handleCreateLinkedTask items links cosF sinF center w taskId newGoalId linkId1
        linkId2).1.take items.length = items) ∧
    ((handleCreateLinkedTask items links cosF sinF center w taskId newGoalId linkId1
        linkId2).2.take links.length = links) ∧
    (((handleCreateLinkedTask items links cosF sinF center w taskId newGoalId linkId1
        linkId2).1.drop items.length).filter
          (fun i => i.type == ItemType.sticky)).length = 1 ∧
    (((handleCreateLinkedTask items links cosF sinF center w taskId newGoalId linkId1
        linkId2).1.drop items.length).filter
          (fun i => i.type == ItemType.goal)).length =
      (if w.goalId = "new_goal" ∨ (w.goalId = "" ∧ w.newGoalName ≠ "") then 1 else 0) ∧
    ((handleCreateLinkedTask items links cosF sinF center w taskId newGoalId linkId1
        linkId2).1.drop items.length).length =
      1 + (if w.goalId = "new_goal" ∨ (w.goalId = "" ∧ w.newGoalName ≠ "") then 1 else 0) ∧
    ((handleCreateLinkedTask items links cosF sinF center w taskId newGoalId linkId1
        linkId2).2.drop links.length).length ≤ 2 ∧
    (((handleCreateLinkedTask items links cosF sinF center w taskId newGoalId linkId1
        linkId2).2.drop links.length).filter (fun l => l.toId == taskId)).length =
      (if (resolveWizardSource items w).isSome then 1 else 0) ∧
    (∀ l ∈ (handleCreateLinkedTask items links cosF sinF center w taskId newGoalId linkId1
        linkId2).2.drop links.length, l.toId = taskId →
      ∃ src, resolveWizardSource items w = some src ∧ l.fromId = src.id ∧
        l.variant = LinkVariant.critical) ∧
    (((handleCreateLinkedTask items links cosF sinF center w taskId newGoalId linkId1
        linkId2).2.drop links.length).filter (fun l => l.fromId == taskId)).length =
      (if w.goalId = "new_goal" ∨ (w.goalId = "" ∧ w.newGoalName ≠ "") ∨
          (w.goalId ≠ "" ∧ w.goalId ≠ "new_goal") then 1 else 0) ∧
    (∀ l ∈ (handleCreateLinkedTask items links cosF sinF center w taskId newGoalId linkId1
        linkId2).2.drop links.length, l.fromId = taskId →
      l.toId = (if w.goalId = "new_goal" ∨ (w.goalId = "" ∧ w.newGoalName ≠ "")
        then newGoalId else w.goalId) ∧ l.variant = LinkVariant.positive) := by
  cases hsrc : resolveWizardSource items w with
  | none =>
    by_cases hcg : w.goalId = "new_goal" ∨ (w.goalId = "" ∧ w.newGoalName ≠ "")
    · simp only [handleCreateLinkedTask, hsrc]
      simp [hcg, hg1, hg2, ht2, ht3, List.append_assoc, List.take_left, List.drop_left,
        beq_iff_eq]
      rw [if_pos (by tauto)]
    · by_cases htg : w.goalId ≠ "" ∧ w.goalId ≠ "new_goal"
      · simp only [handleCreateLinkedTask, hsrc]
        simp [hcg, htg, ht2, ht3, List.append_assoc, List.take_left, List.drop_left,
          beq_iff_eq]
      · simp only [handleCreateLinkedTask, hsrc]
        simp [hcg, htg, ht2, ht3, List.append_assoc, List.take_left, List.drop_left,
          beq_iff_eq]
  | some src =>
    have hsid : src.id ≠ taskId := ht1 src (resolveWizardSource_mem items w src hsrc)
    by_cases hcg : w.goalId = "new_goal" ∨ (w.goalId = "" ∧ w.newGoalName ≠ "")
    · simp only [handleCreateLinkedTask, hsrc]
      simp [hcg, hg1, hg2, ht2, ht3, hsid, List.append_assoc, List.take_left,
        List.drop_left, beq_iff_eq]
      rw [if_pos (by tauto)]
    · by_cases htg : w.goalId ≠ "" ∧ w.goalId ≠ "new_goal"
      · simp only [handleCreateLinkedTask, hsrc]
        simp [hcg, htg, ht2, ht3, hsid, List.append_assoc, List.take_left,
          List.drop_left, beq_iff_eq]
      · simp only [handleCreateLinkedTask, hsrc]
        simp [hcg, htg, ht2, ht3, hsid, List.append_assoc, List.take_left,
          List.drop_left, beq_iff_eq]

/-- The wizard state of the C8 witness: an existing goal "g1" is selected. -/
def wizardWitnessState : WizardState :=
  { taskName := "T", goalId := "g1", newGoalName := "", sourceId := none }

/-- C8 witness: on an empty board, a submission targeting the selected goal
"g1" appends exactly one sticky task node. -/
theorem task_wizard_amended_witness :
    (((handleCreateLinkedTask [] [] (fun _ => 0) (fun _ => 0) (400, 300)
        wizardWitnessState "t1" "ng" "l1" "l2").1.drop 0).filter
          (fun i => i.type == ItemType.sticky)).length = 1 :=
  (task_wizard_amended [] [] (fun _ => 0) (fun _ => 0) (400, 300) wizardWitnessState
    "t1" "ng" "l1" "l2" (by decide) (by decide) (by simp) (by decide)
    (by decide)).2.2.1

end PlanningRoom
